import Mathlib

/-!
Verification of the correlation and dispatch engine of a small JSON-RPC
style SDK (an MCP client and server in Go, package `mcp`).

The Go source is shallowly embedded:

* JSON documents are modelled by the inductive type `Json`.  Numbers are
  modelled as integers, since every number appearing in the verified
  behaviour (identifiers, error codes, the arithmetic of the `double`
  resource) is integral; what matters for routing is only the *kind* of a
  JSON value (a Go type assertion `id.(float64)` succeeds exactly on JSON
  numbers).
* Go maps are modelled as association lists whose insert replaces any
  binding of the same key and whose delete removes every binding of the
  key, matching Go map semantics on the key set.
* Go channels of `responseChan` are modelled by opaque channel tokens
  (`Nat`); sending on a channel is recorded as an explicit event.
* `json.Unmarshal` of a whole message either fails (the `malformed`
  constructor) or produces the decoded document; decoding a document into
  one of the typed Go structs is embedded field by field following
  `encoding/json` semantics (absent field keeps the zero value, a type
  mismatch fails, `null` leaves the field untouched).
* External failure points of `CallRaw` (parameter marshalling, request
  marshalling, the transport write) are an explicit `SendOutcome`
  parameter; the function body mirrors `client.go` exactly.
-/

namespace Mcp

/-- A JSON document.  `obj` keeps fields in syntactic order; lookups take
the first binding, and all concrete documents used below are duplicate
free. -/
inductive Json where
  | null : Json
  | bool (b : Bool) : Json
  | num (n : Int) : Json
  | str (s : String) : Json
  | arr (elems : List Json) : Json
  | obj (fields : List (String × Json)) : Json


/-- Field lookup in a decoded JSON object (`m["id"]` on a
`map[string]interface\x7b\x7d` in the Go source). -/
def lookupField : List (String × Json) → String → Option Json
  | [], _ => none
  | (k, v) :: rest, key => if k = key then some v else lookupField rest key

/-- `RPCError` from `protocol.go`: code, message and optional data. -/
structure RPCError where
  code : Int
  message : String
  data : Option Json


/-- `Request` from `protocol.go`.  `params` is a raw payload that may be
absent (`json.RawMessage` with `omitempty`); `id` is `interface\x7b\x7d`, so any
JSON value, with `Json.null` for an absent field. -/
structure Request where
  jsonrpc : String
  method : String
  params : Option Json
  id : Json


/-- `Response` from `protocol.go`: exactly the decoded Go struct. -/
structure Response where
  jsonrpc : String
  result : Option Json
  error : Option RPCError
  id : Json


/-- Decoding a JSON value into the `*RPCError` field of a `Response`
(`encoding/json`): `null` gives a nil pointer, an object decodes field by
field (absent fields keep their zero values), anything else is a type
error. -/
def decodeRPCErrorJson : Json → Option (Option RPCError)
  | Json.null => some none
  | Json.obj fields =>
    let codeOpt : Option Int :=
      match lookupField fields "code" with
      | none => some 0
      | some Json.null => some 0
      | some (Json.num n) => some n
      | some _ => none
    let msgOpt : Option String :=
      match lookupField fields "message" with
      | none => some ""
      | some Json.null => some ""
      | some (Json.str s) => some s
      | some _ => none
    match codeOpt, msgOpt with
    | some c, some m =>
      some (some ⟨c, m, match lookupField fields "data" with
                        | some Json.null => none
                        | d => d⟩)
    | _, _ => none
  | _ => none

/-- Decoding a string-typed struct field: absent or `null` keeps the zero
value `""`, a JSON string decodes, anything else is a type error. -/
def decodeStringField (fields : List (String × Json)) (key : String) : Option String :=
  match lookupField fields key with
  | none => some ""
  | some Json.null => some ""
  | some (Json.str s) => some s
  | some _ => none

/-- `json.Unmarshal(msg, &resp)` for an already well-formed JSON object:
the second unmarshal performed by the client's `handleMessage`. -/
def decodeResponse (fields : List (String × Json)) : Option Response :=
  match decodeStringField fields "jsonrpc" with
  | none => none
  | some jr =>
    match (match lookupField fields "error" with
           | none => some none
           | some j => decodeRPCErrorJson j) with
    | none => none
    | some errv =>
      some { jsonrpc := jr
             result := lookupField fields "result"
             error := errv
             id := (lookupField fields "id").getD Json.null }

/-! ## Client (`client.go`) -/

/-- The pending-requests registry `map[int]chan responseChan`, as an
association list from identifier to a channel token. -/
def PendingMap := List (Int × Nat)

/-- Go map lookup `c.pendingRequests[idInt]`. -/
def pendingLookup : List (Int × Nat) → Int → Option Nat
  | [], _ => none
  | (k, v) :: rest, key => if k = key then some v else pendingLookup rest key

/-- Go map delete `delete(c.pendingRequests, id)`: removes every binding
of the key. -/
def pendingErase (m : List (Int × Nat)) (k : Int) : List (Int × Nat) :=
  m.filter (fun p => p.1 != k)

/-- Go map insert `c.pendingRequests[id] = ch`: replaces any binding of
the key. -/
def pendingInsert (m : List (Int × Nat)) (k : Int) (v : Nat) : List (Int × Nat) :=
  pendingErase m k ++ [(k, v)]

/-- The mutable fields of `Client` relevant to correlation: the
notification-handler registry (handlers as opaque tokens, since no code
path ever calls one), the pending-requests map and the identifier
counter. -/
structure ClientState where
  notificationHandlers : List (String × Nat)
  pendingRequests : List (Int × Nat)
  nextID : Int
deriving DecidableEq

/-- `NewClient`: Go zero values, in particular `nextID = 0`. -/
def initClient : ClientState :=
  { notificationHandlers := [], pendingRequests := [], nextID := 0 }

/-- The struct `responseChan` sent over a pending call's channel. -/
structure ResponseChan where
  result : Option Json
  error : Option RPCError

/-- An observable action of the client's `handleMessage`: filling a
pending call's channel (`ch <- responseChan\x7b...\x7d; close(ch)`), or invoking
a notification handler.  The second constructor exists so that the
absence of notification dispatch in the source is expressible; no
embedded code path produces it. -/
inductive ClientEvent where
  | fill (ch : Nat) (rc : ResponseChan) : ClientEvent
  | notify (handler : Nat) (method : String) (params : Option Json) : ClientEvent

/-- Result of one `handleMessage` run: the emitted events, or a runtime
fault (the `id.(float64)` type assertion panics). -/
inductive HandleResult where
  | events (es : List ClientEvent) : HandleResult
  | panicked : HandleResult

/-- A message handed to the client's read loop: either bytes that fail
`json.Unmarshal` into `map[string]interface\x7b\x7d`, or the decoded object. -/
inductive ClientInbound where
  | malformed : ClientInbound
  | msg (fields : List (String × Json)) : ClientInbound

/-- `Client.handleMessage` from `client.go`, line for line:
unmarshal into a map (failure: log and return); if `"id"` is present,
unmarshal the same bytes into `Response` (failure: log and return), then
convert the map's id via `int(id.(float64))` — a non-number faults —
look up and delete the pending entry under the lock, and if it existed
send the result/error pair and close the channel.  A message without
`"id"` falls through the single `if` and nothing happens: the
notification-handler registry is never consulted. -/
def clientHandleMessage (st : ClientState) (m : ClientInbound) : ClientState × HandleResult :=
  match m with
  | ClientInbound.malformed => (st, HandleResult.events [])
  | ClientInbound.msg fields =>
    match lookupField fields "id" with
    | none => (st, HandleResult.events [])
    | some idv =>
      match decodeResponse fields with
      | none => (st, HandleResult.events [])
      | some resp =>
        match idv with
        | Json.num i =>
          match pendingLookup st.pendingRequests i with
          | some ch =>
            ({ st with pendingRequests := pendingErase st.pendingRequests i },
             HandleResult.events [ClientEvent.fill ch ⟨resp.result, resp.error⟩])
          | none => (st, HandleResult.events [])
        | _ => (st, HandleResult.panicked)

/-- Outcome of the three external operations `CallRaw` performs after
registering the pending entry, in source order: `json.Marshal(params)`,
`json.Marshal(req)`, `transport.WriteMessage(data)`.  `sent` means all
succeeded. -/
inductive SendOutcome where
  | paramsMarshalError : SendOutcome
  | reqMarshalError : SendOutcome
  | writeError : SendOutcome
  | sent : SendOutcome
deriving DecidableEq

/-- The send half of `CallRaw`: allocate `id := nextID`, increment the
counter, register the channel, then attempt the marshals and the write;
on any failure delete the registry entry and return the error, otherwise
leave the entry live and return the identifier and channel the caller
will block on. -/
def callRawSend (st : ClientState) (ch : Nat) (o : SendOutcome) :
    ClientState × Except SendOutcome (Int × Nat) :=
  let id := st.nextID
  let st1 := { st with nextID := st.nextID + 1,
                       pendingRequests := pendingInsert st.pendingRequests id ch }
  match o with
  | SendOutcome.sent => (st1, Except.ok (id, ch))
  | e => ({ st1 with pendingRequests := pendingErase st1.pendingRequests id },
          Except.error e)

/-- The receive half of `CallRaw`: `resp := <-ch`; an error response
fails the call with `fmt.Errorf("rpc error: %s", resp.err.Message)`,
otherwise the raw result is returned. -/
def callResolve (rc : ResponseChan) : Except String (Option Json) :=
  match rc.error with
  | some e => Except.error ("rpc error: " ++ e.message)
  | none => Except.ok rc.result

/-- One atomic transition of the client state: a `CallRaw` send (the
registry mutations happen under one lock) or the read loop handling one
inbound message. -/
inductive ClientStep where
  | call (ch : Nat) (o : SendOutcome) : ClientStep
  | recv (m : ClientInbound) : ClientStep

/-- The state component of one step. -/
def clientStepRun (st : ClientState) : ClientStep → ClientState
  | ClientStep.call ch o => (callRawSend st ch o).1
  | ClientStep.recv m => (clientHandleMessage st m).1

/-- Run a sequence of steps. -/
def runSteps (st : ClientState) : List ClientStep → ClientState
  | [] => st
  | s :: rest => runSteps (clientStepRun st s) rest

/-- The identifiers carried by the successive `CallRaw` invocations of a
step sequence, in order. -/
def runRecord (st : ClientState) : List ClientStep → List Int
  | [] => []
  | ClientStep.call ch o :: rest =>
    st.nextID :: runRecord (clientStepRun st (ClientStep.call ch o)) rest
  | ClientStep.recv m :: rest => runRecord (clientStepRun st (ClientStep.recv m)) rest

/-- Number of `CallRaw` invocations in a step sequence. -/
def countCalls : List ClientStep → Nat
  | [] => 0
  | ClientStep.call _ _ :: rest => countCalls rest + 1
  | ClientStep.recv _ :: rest => countCalls rest

/-! ## Server (`server.go`)

A handler takes the raw params payload (`json.RawMessage`, absent for a
request with no `params` field) and returns a result (`interface\x7b\x7d`,
where a `nil` result is `none`) or an error whose `Error()` text is the
`String`.  The `context.Context` argument is always `context.Background()`
and carries no information, so it is dropped from the embedding. -/

def HandlerF : Type := Option Json → Except String (Option Json)

/-- `Prompt` from `server.go`. -/
structure Prompt where
  name : String
  template : String

/-- Generic association-list lookup with string keys, the embedding of a
Go `map[string]T` read. -/
def alistLookup {α : Type} : List (String × α) → String → Option α
  | [], _ => none
  | (k, v) :: rest, key => if k = key then some v else alistLookup rest key

/-- The registries of `Server`.  `userHandlers` holds entries added with
`RegisterHandler`; the four built-in entries that `NewServer` places in
`s.handlers` are closures over the server and are resolved against the
current state by `lookupHandler` below. -/
structure ServerState where
  userHandlers : List (String × HandlerF)
  prompts : List (String × Prompt)
  resourceHandlers : List (String × HandlerF)
  toolHandlers : List (String × HandlerF)

/-- `json.Marshal` of a `Prompt` (no struct tags, so Go field names). -/
def promptToJson (p : Prompt) : Json :=
  Json.obj [("Name", Json.str p.name), ("Template", Json.str p.template)]

/-- Decoding the raw params into `struct \x7b Name string \x7d`, as the three
built-in lookup handlers do: a `nil` payload fails `json.Unmarshal`, a
non-object is a type error, a missing or null `name` keeps the zero
value. -/
def decodeNameField : Option Json → Except String String
  | none => Except.error "unexpected end of JSON input"
  | some (Json.obj fields) =>
    match lookupField fields "name" with
    | none => Except.ok ""
    | some Json.null => Except.ok ""
    | some (Json.str s) => Except.ok s
    | some _ => Except.error "json: cannot unmarshal value into Go struct field .name of type string"
  | some _ => Except.error "json: cannot unmarshal value into Go value of type struct"

/-- `listPromptsHandler`: returns the prompt map (marshalled as an
object keyed by prompt name). -/
def listPromptsHandler (s : ServerState) : HandlerF := fun _ =>
  Except.ok (some (Json.obj (s.prompts.map (fun p => (p.1, promptToJson p.2)))))

/-- `getPromptHandler`: decode `\x7bname\x7d`, look the prompt up, fail with
`"prompt not found: <name>"` if absent. -/
def getPromptHandler (s : ServerState) : HandlerF := fun params =>
  match decodeNameField params with
  | Except.error e => Except.error e
  | Except.ok name =>
    match alistLookup s.prompts name with
    | none => Except.error ("prompt not found: " ++ name)
    | some p => Except.ok (some (promptToJson p))

/-- `getResourceHandler`: decode `\x7bname\x7d`, look the resource up in the
sub-registry, fail with `"resource not found: <name>"` if absent,
otherwise hand the *outer* params to the resource's `ServeJSONRPC`. -/
def getResourceHandler (s : ServerState) : HandlerF := fun params =>
  match decodeNameField params with
  | Except.error e => Except.error e
  | Except.ok name =>
    match alistLookup s.resourceHandlers name with
    | none => Except.error ("resource not found: " ++ name)
    | some h => h params

/-- `executeToolHandler`: same shape over the tool sub-registry. -/
def executeToolHandler (s : ServerState) : HandlerF := fun params =>
  match decodeNameField params with
  | Except.error e => Except.error e
  | Except.ok name =>
    match alistLookup s.toolHandlers name with
    | none => Except.error ("tool not found: " ++ name)
    | some h => h params

/-- Resolution of `s.handlers[req.Method]`.  In the source the four
built-ins are stored in the same map at `NewServer` time as closures
over `s`; `RegisterHandler` overwrites by key.  Flattened: a
user-registered entry shadows a built-in of the same name, built-ins
read the current registries, and any other name is unbound. -/
def lookupHandler (s : ServerState) (method : String) : Option HandlerF :=
  match alistLookup s.userHandlers method with
  | some h => some h
  | none =>
    if method = "listPrompts" then some (listPromptsHandler s)
    else if method = "getPrompt" then some (getPromptHandler s)
    else if method = "getResource" then some (getResourceHandler s)
    else if method = "executeTool" then some (executeToolHandler s)
    else none

/-- A message handed to the server's dispatch: either bytes that fail
`json.Unmarshal` into `Request`, or the decoded request.  A notification
decodes into a `Request` whose `id` is `Json.null` (the `ID interface\x7b\x7d`
field keeps its zero value). -/
inductive ServerInbound where
  | malformed : ServerInbound
  | req (r : Request) : ServerInbound

/-- `Server.handleMessage` from `server.go`: the list of response frames
written to the transport for one inbound message (every code path writes
exactly one).  Parse failure → `sendError(nil, -32700, "Parse error")`;
wrong version tag → `-32600` with the request id; unbound method →
`-32601`; handler error → `-32000` with the error's text; handler
success → the marshalled result, or no result field when the handler
returned `nil`. -/
def serverHandleMessage (s : ServerState) (m : ServerInbound) : List Response :=
  match m with
  | ServerInbound.malformed =>
    [⟨"2.0", none, some ⟨-32700, "Parse error", none⟩, Json.null⟩]
  | ServerInbound.req r =>
    if r.jsonrpc ≠ "2.0" then
      [⟨"2.0", none, some ⟨-32600, "Invalid Request", none⟩, r.id⟩]
    else
      match lookupHandler s r.method with
      | none => [⟨"2.0", none, some ⟨-32601, "Method not found", none⟩, r.id⟩]
      | some h =>
        match h r.params with
        | Except.error e => [⟨"2.0", none, some ⟨-32000, e, none⟩, r.id⟩]
        | Except.ok result => [⟨"2.0", result, none, r.id⟩]

/-- The serve loop over a finite inbound prefix: each message read is
dispatched (in the source on its own goroutine) and the loop reads on;
the frames written are the concatenation of each dispatch's frames. -/
def serverServe (s : ServerState) : List ServerInbound → List Response
  | [] => []
  | m :: rest => serverHandleMessage s m ++ serverServe s rest

/-! ### The `double` resource of the integration test

`mcp_test.go` registers `NewResource(func(params TestParams)
(TestResponse, error) \x7b return TestResponse\x7bDouble: params.Value * 2\x7d, nil \x7d)`
under the name `"double"`, with `TestParams \x7b Value int `json:"value"` \x7d`
and `TestResponse \x7b Double int `json:"double"` \x7d`. -/

/-- Decoding the inner `\x7bname, params\x7d` envelope of
`Resource.ServeJSONRPC`: `Params` is a raw payload, absent when the
field is missing. -/
def decodeEnvelope : Option Json → Except String (String × Option Json)
  | none => Except.error "unexpected end of JSON input"
  | some (Json.obj fields) =>
    match (match lookupField fields "name" with
           | none => Except.ok ""
           | some Json.null => Except.ok ""
           | some (Json.str s) => Except.ok s
           | some _ => Except.error "json: cannot unmarshal value into Go struct field .name of type string") with
    | Except.error e => Except.error e
    | Except.ok name => Except.ok (name, lookupField fields "params")
  | some _ => Except.error "json: cannot unmarshal value into Go value of type struct"

/-- Decoding `TestParams \x7b Value int \x7d` from a JSON document. -/
def decodeTestParams : Json → Except String Int
  | Json.obj fields =>
    match lookupField fields "value" with
    | none => Except.ok 0
    | some Json.null => Except.ok 0
    | some (Json.num n) => Except.ok n
    | some _ => Except.error "json: cannot unmarshal value into Go struct field .value of type int"
  | Json.null => Except.ok 0
  | _ => Except.error "json: cannot unmarshal value into Go value of type struct"

/-- `Resource[TestParams, TestResponse].ServeJSONRPC` specialised to the
doubling handler: decode the envelope, decode `params` when non-empty
(otherwise the zero value), apply the handler, marshal the response. -/
def doubleResource : HandlerF := fun params =>
  match decodeEnvelope params with
  | Except.error e => Except.error e
  | Except.ok (_, inner) =>
    match (match inner with
           | none => Except.ok 0
           | some j => decodeTestParams j) with
    | Except.error e => Except.error e
    | Except.ok v => Except.ok (some (Json.obj [("double", Json.num (v * 2))]))

/-- The server of the integration test: fresh `NewServer` plus
`RegisterResource("double", ...)`. -/
def doubleServer : ServerState :=
  { userHandlers := [], prompts := [], resourceHandlers := [("double", doubleResource)],
    toolHandlers := [] }

/-! ## Concrete fixtures used by witnesses -/

/-- A server with no registrations at all (fresh `NewServer`). -/
def emptyServer : ServerState :=
  { userHandlers := [], prompts := [], resourceHandlers := [], toolHandlers := [] }

/-- A handler that always fails, registered under `"boom"` below. -/
def boomHandler : HandlerF := fun _ => Except.error "kaboom"

/-- A server with one always-failing user handler. -/
def boomServer : ServerState :=
  { userHandlers := [("boom", boomHandler)], prompts := [], resourceHandlers := [],
    toolHandlers := [] }

/-- A decoded response message carrying id 1 and result 7. -/
def demoFields : List (String × Json) :=
  [("jsonrpc", Json.str "2.0"), ("id", Json.num 1), ("result", Json.num 7)]

/-- The `Response` struct `demoFields` decodes to. -/
def demoResp : Response := ⟨"2.0", some (Json.num 7), none, Json.num 1⟩

/-- A decoded response message carrying id 5 (no pending call below). -/
def demoFields5 : List (String × Json) :=
  [("jsonrpc", Json.str "2.0"), ("id", Json.num 5), ("result", Json.num 8)]

/-- The `Response` struct `demoFields5` decodes to. -/
def demoResp5 : Response := ⟨"2.0", some (Json.num 8), none, Json.num 5⟩

/-- A client with one pending call, id 1 on channel 42. -/
def demoClient : ClientState := ⟨[], [(1, 42)], 2⟩

/-- A decoded response message whose `"id"` is a JSON string. -/
def strIdFields : List (String × Json) :=
  [("jsonrpc", Json.str "2.0"), ("id", Json.str "abc"), ("result", Json.num 1)]

/-- A client with a notification handler (token 99) registered for
`"ping"` via `RegisterNotificationHandler`. -/
def pingClient : ClientState := ⟨[("ping", 99)], [], 0⟩

/-- A decoded notification message for method `"ping"`: no `"id"`. -/
def pingFields : List (String × Json) :=
  [("jsonrpc", Json.str "2.0"), ("method", Json.str "ping"),
   ("params", Json.obj [])]

/-! ## Claims about the server -/

/-- Claim C3: for every inbound message, a payload that fails to decode
as a Request yields an error Response with code -32700 and a null
identifier; a decoded Request whose protocol-version tag is not "2.0"
yields code -32600 carrying the request's identifier; a Request whose
method has no bound handler yields code -32601; and a Request whose
bound handler returns a failure yields code -32000 with the failure's
message text as the error message. -/
theorem C3_server_error_paths (s : ServerState) :
    (serverHandleMessage s ServerInbound.malformed
        = [⟨"2.0", none, some ⟨-32700, "Parse error", none⟩, Json.null⟩])
    ∧ (∀ r : Request, r.jsonrpc ≠ "2.0" →
        serverHandleMessage s (ServerInbound.req r)
          = [⟨"2.0", none, some ⟨-32600, "Invalid Request", none⟩, r.id⟩])
    ∧ (∀ r : Request, r.jsonrpc = "2.0" → lookupHandler s r.method = none →
        serverHandleMessage s (ServerInbound.req r)
          = [⟨"2.0", none, some ⟨-32601, "Method not found", none⟩, r.id⟩])
    ∧ (∀ (r : Request) (h : HandlerF) (e : String), r.jsonrpc = "2.0" →
        lookupHandler s r.method = some h → h r.params = Except.error e →
        serverHandleMessage s (ServerInbound.req r)
          = [⟨"2.0", none, some ⟨-32000, e, none⟩, r.id⟩]) := by
  refine ⟨rfl, ?_, ?_, ?_⟩
  · intro r hr
    simp [serverHandleMessage, hr]
  · intro r hv hl
    simp [serverHandleMessage, hv, hl]
  · intro r h e hv hl he
    simp [serverHandleMessage, hv, hl, he]

/-- Witness for C3: the four error paths at concrete inputs on a server
with one always-failing handler. -/
theorem C3_witness :
    (serverHandleMessage boomServer ServerInbound.malformed
        = [⟨"2.0", none, some ⟨-32700, "Parse error", none⟩, Json.null⟩])
    ∧ (serverHandleMessage boomServer (ServerInbound.req ⟨"1.0", "x", none, Json.num 7⟩)
        = [⟨"2.0", none, some ⟨-32600, "Invalid Request", none⟩, Json.num 7⟩])
    ∧ (serverHandleMessage boomServer (ServerInbound.req ⟨"2.0", "noSuchMethod", none, Json.num 8⟩)
        = [⟨"2.0", none, some ⟨-32601, "Method not found", none⟩, Json.num 8⟩])
    ∧ (serverHandleMessage boomServer (ServerInbound.req ⟨"2.0", "boom", none, Json.num 9⟩)
        = [⟨"2.0", none, some ⟨-32000, "kaboom", none⟩, Json.num 9⟩]) :=
  ⟨(C3_server_error_paths boomServer).1,
   (C3_server_error_paths boomServer).2.1 ⟨"1.0", "x", none, Json.num 7⟩ (by decide),
   (C3_server_error_paths boomServer).2.2.1 ⟨"2.0", "noSuchMethod", none, Json.num 8⟩ rfl rfl,
   (C3_server_error_paths boomServer).2.2.2 ⟨"2.0", "boom", none, Json.num 9⟩ boomHandler
     "kaboom" rfl rfl rfl⟩

/-- Claim C4: calling method "getResource" with params
`\x7b"name":"double","params":\x7b"value":5\x7d\x7d` against a server that has
registered a "double" resource whose handler returns
`\x7b"double": value*2\x7d` yields the result `\x7b"double":10\x7d`. -/
theorem C4_double_roundtrip :
    serverHandleMessage doubleServer
      (ServerInbound.req ⟨"2.0", "getResource",
        some (Json.obj [("name", Json.str "double"),
                        ("params", Json.obj [("value", Json.num 5)])]),
        Json.num 1⟩)
      = [⟨"2.0", some (Json.obj [("double", Json.num 10)]), none, Json.num 1⟩] := rfl

/-- Counterexample to claim C6 as stated: a Notification (no identifier,
so the decoded `Request` carries a null id) whose method has no
registered handler is *not* silently dropped — the server writes a
Method-Not-Found error Response for it. -/
theorem C6_counterexample :
    serverHandleMessage emptyServer (ServerInbound.req ⟨"2.0", "someNote", none, Json.null⟩)
        = [⟨"2.0", none, some ⟨-32601, "Method not found", none⟩, Json.null⟩]
    ∧ serverHandleMessage emptyServer (ServerInbound.req ⟨"2.0", "someNote", none, Json.null⟩)
        ≠ [] :=
  ⟨rfl, fun h => List.noConfusion h⟩

/-- Claim C6 as amended: a Notification whose method has no registered
handler receives a Method-Not-Found (-32601) error Response carrying a
null identifier, and the read loop continues processing subsequent
messages. -/
theorem C6_amended (s : ServerState) (method : String) (rest : List ServerInbound)
    (hno : lookupHandler s method = none) :
    serverServe s (ServerInbound.req ⟨"2.0", method, none, Json.null⟩ :: rest)
      = ⟨"2.0", none, some ⟨-32601, "Method not found", none⟩, Json.null⟩
          :: serverServe s rest := by
  simp [serverServe, serverHandleMessage, hno]

/-- Witness for the amended C6 at a concrete input. -/
theorem C6_witness :
    serverServe emptyServer
        [ServerInbound.req ⟨"2.0", "someNote", none, Json.null⟩, ServerInbound.malformed]
      = ⟨"2.0", none, some ⟨-32601, "Method not found", none⟩, Json.null⟩
          :: serverServe emptyServer [ServerInbound.malformed] :=
  C6_amended emptyServer "someNote" [ServerInbound.malformed] rfl

/-! ## Claims about the client -/

/-- Claim C1: a Response carrying identifier i delivered to the read
loop: if a PendingCall is registered under i, that entry is removed and
its delivery slot is filled exactly once with the Response's result or
error (so each call resolves to the payload registered under its own
identifier, independent of arrival order); if none is registered, the
Response is discarded with no change to the pending map. -/
theorem C1_response_correlation (st : ClientState) (fields : List (String × Json))
    (i : Int) (resp : Response)
    (hid : lookupField fields "id" = some (Json.num i))
    (hresp : decodeResponse fields = some resp) :
    (∀ ch : Nat, pendingLookup st.pendingRequests i = some ch →
      clientHandleMessage st (ClientInbound.msg fields)
        = ({ st with pendingRequests := pendingErase st.pendingRequests i },
           HandleResult.events [ClientEvent.fill ch ⟨resp.result, resp.error⟩]))
    ∧ (pendingLookup st.pendingRequests i = none →
      clientHandleMessage st (ClientInbound.msg fields) = (st, HandleResult.events [])) := by
  constructor
  · intro ch hch
    simp [clientHandleMessage, hid, hresp, hch]
  · intro hch
    simp [clientHandleMessage, hid, hresp, hch]

/-- Witness for C1: a matched response fills channel 42 and removes the
entry; an unmatched one (id 5) changes nothing. -/
theorem C1_witness :
    (clientHandleMessage demoClient (ClientInbound.msg demoFields)
        = ({ demoClient with pendingRequests := pendingErase demoClient.pendingRequests 1 },
           HandleResult.events [ClientEvent.fill 42 ⟨some (Json.num 7), none⟩]))
    ∧ (clientHandleMessage demoClient (ClientInbound.msg demoFields5)
        = (demoClient, HandleResult.events [])) :=
  ⟨(C1_response_correlation demoClient demoFields 1 demoResp rfl rfl).1 42 rfl,
   (C1_response_correlation demoClient demoFields5 5 demoResp5 rfl rfl).2 rfl⟩

/-- Claim C7 (the code contradicts it): an inbound message with no
identifier and a method name is ignored by `handleMessage` — the
notification-handler registry is never consulted and no handler is
invoked, contrary to the documented purpose of
`RegisterNotificationHandler`. -/
theorem C7_no_notification_dispatch (st : ClientState) (fields : List (String × Json))
    (hid : lookupField fields "id" = none) :
    clientHandleMessage st (ClientInbound.msg fields) = (st, HandleResult.events []) := by
  simp [clientHandleMessage, hid]

/-- Witness for C7: a `"ping"` notification reaching a client with a
registered `"ping"` handler produces no event at all. -/
theorem C7_witness :
    clientHandleMessage pingClient (ClientInbound.msg pingFields)
      = (pingClient, HandleResult.events []) :=
  C7_no_notification_dispatch pingClient pingFields rfl

/-- Counterexample to claim C9 as stated: the failure `CallRaw` returns
for an error Response does not carry the remote code — two responses
with distinct codes and the same message produce identical failures. -/
theorem C9_counterexample :
    callResolve ⟨none, some ⟨-32000, "boom", none⟩⟩
      = callResolve ⟨none, some ⟨-32601, "boom", none⟩⟩
    ∧ (-32000 : Int) ≠ (-32601 : Int) :=
  ⟨rfl, by decide⟩

/-- Claim C9 as amended: for an error Response, `CallRaw` fails with an
error whose text is "rpc error: " followed by the remote message (the
remote code is discarded); for a result Response it returns the result
payload. -/
theorem C9_amended (rc : ResponseChan) :
    (∀ e : RPCError, rc.error = some e →
       callResolve rc = Except.error ("rpc error: " ++ e.message))
    ∧ (rc.error = none → callResolve rc = Except.ok rc.result) := by
  constructor
  · intro e he
    simp [callResolve, he]
  · intro he
    simp [callResolve, he]

/-- Witness for the amended C9 at concrete responses. -/
theorem C9_witness :
    callResolve ⟨none, some ⟨-32000, "boom", none⟩⟩ = Except.error ("rpc error: " ++ "boom")
    ∧ callResolve ⟨some (Json.num 4), none⟩ = Except.ok (some (Json.num 4)) :=
  ⟨(C9_amended ⟨none, some ⟨-32000, "boom", none⟩⟩).1 ⟨-32000, "boom", none⟩ rfl,
   (C9_amended ⟨some (Json.num 4), none⟩).2 rfl⟩

/-- Claim C10: an inbound client message whose "id" field is present but
not a JSON number is never delivered to a pending call — the conversion
`int(id.(float64))` faults on it, so response routing is total only over
numeric identifiers. -/
theorem C10_nonnumeric_id_faults (st : ClientState) (fields : List (String × Json))
    (idv : Json) (resp : Response)
    (hid : lookupField fields "id" = some idv)
    (hnum : ∀ n : Int, idv ≠ Json.num n)
    (hresp : decodeResponse fields = some resp) :
    clientHandleMessage st (ClientInbound.msg fields) = (st, HandleResult.panicked) := by
  cases idv with
  | num n => exact absurd rfl (hnum n)
  | null => simp [clientHandleMessage, hid, hresp]
  | bool b => simp [clientHandleMessage, hid, hresp]
  | str s => simp [clientHandleMessage, hid, hresp]
  | arr xs => simp [clientHandleMessage, hid, hresp]
  | obj fs => simp [clientHandleMessage, hid, hresp]

/-- Witness for C10: a string id (as the wire shape permits) makes
`handleMessage` fault rather than deliver. -/
theorem C10_witness :
    clientHandleMessage demoClient (ClientInbound.msg strIdFields)
      = (demoClient, HandleResult.panicked) :=
  C10_nonnumeric_id_faults demoClient strIdFields (Json.str "abc")
    ⟨"2.0", some (Json.num 1), none, Json.str "abc"⟩ rfl
    (fun _ h => Json.noConfusion h) rfl

/-! ## Registry invariants (claims C2, C5, C8) -/

/-- The keys of the pending map. -/
def pendingKeys (m : List (Int × Nat)) : List Int := m.map Prod.fst

/-- Membership after a delete. -/
theorem mem_pendingErase {m : List (Int × Nat)} {k : Int} {p : Int × Nat}
    (h : p ∈ pendingErase m k) : p ∈ m ∧ p.1 ≠ k := by
  unfold pendingErase at h
  have h' := List.mem_filter.mp h
  exact ⟨h'.1, by simpa using h'.2⟩

/-- Deleting preserves distinctness of keys. -/
theorem keys_nodup_pendingErase {m : List (Int × Nat)} (h : (pendingKeys m).Nodup)
    (k : Int) : (pendingKeys (pendingErase m k)).Nodup := by
  unfold pendingKeys pendingErase
  exact List.Nodup.sublist (List.Sublist.map Prod.fst (List.filter_sublist m)) h

/-- The deleted key is gone. -/
theorem not_mem_keys_pendingErase (m : List (Int × Nat)) (k : Int) :
    k ∉ pendingKeys (pendingErase m k) := by
  intro h
  unfold pendingKeys pendingErase at h
  obtain ⟨p, hp, hpk⟩ := List.mem_map.mp h
  have h2 := (List.mem_filter.mp hp).2
  rw [hpk] at h2
  simp at h2

/-- Inserting a key preserves distinctness of keys. -/
theorem keys_nodup_pendingInsert {m : List (Int × Nat)} (h : (pendingKeys m).Nodup)
    (k : Int) (v : Nat) : (pendingKeys (pendingInsert m k v)).Nodup := by
  unfold pendingInsert
  show (pendingKeys (pendingErase m k ++ [(k, v)])).Nodup
  unfold pendingKeys
  rw [List.map_append]
  refine List.Nodup.append (keys_nodup_pendingErase h k) (by simp) ?_
  intro a ha hb
  simp at hb
  exact not_mem_keys_pendingErase m k (hb ▸ ha)

/-- Every key of an insert at the counter value stays below the bumped
counter. -/
theorem bound_pendingInsert {m : List (Int × Nat)} {n : Int}
    (h : ∀ p ∈ m, p.1 < n) (v : Nat) :
    ∀ p ∈ pendingInsert m n v, p.1 < n + 1 := by
  intro p hp
  unfold pendingInsert at hp
  rcases List.mem_append.mp hp with hl | hr
  · exact lt_trans (h p (mem_pendingErase hl).1) (lt_add_one n)
  · simp at hr
    rw [hr]
    exact lt_add_one n

/-- Deleting never enlarges the key bound. -/
theorem bound_pendingErase {m : List (Int × Nat)} {n : Int}
    (h : ∀ p ∈ m, p.1 < n) (k : Int) : ∀ p ∈ pendingErase m k, p.1 < n :=
  fun p hp => h p (mem_pendingErase hp).1

/-- The registry invariant of the client: live identifiers are pairwise
distinct and all below the counter. -/
def clientInv (st : ClientState) : Prop :=
  (pendingKeys st.pendingRequests).Nodup ∧ ∀ p ∈ st.pendingRequests, p.1 < st.nextID

/-- `handleMessage` either leaves the state alone or deletes one pending
entry. -/
theorem clientHandleMessage_state (st : ClientState) (m : ClientInbound) :
    (clientHandleMessage st m).1 = st ∨
    ∃ i : Int, (clientHandleMessage st m).1
        = { st with pendingRequests := pendingErase st.pendingRequests i } := by
  unfold clientHandleMessage
  repeat' split
  all_goals first
    | exact Or.inl rfl
    | exact Or.inr ⟨_, rfl⟩

/-- `handleMessage` never touches the identifier counter. -/
theorem clientHandleMessage_nextID (st : ClientState) (m : ClientInbound) :
    (clientHandleMessage st m).1.nextID = st.nextID := by
  rcases clientHandleMessage_state st m with h | ⟨i, h⟩ <;> rw [h]

/-- Every `CallRaw` bumps the counter by one, whether or not the send
succeeds. -/
theorem callRawSend_nextID (st : ClientState) (ch : Nat) (o : SendOutcome) :
    (callRawSend st ch o).1.nextID = st.nextID + 1 := by
  cases o <;> rfl

/-- One step preserves the registry invariant. -/
theorem clientStepRun_inv {st : ClientState} (h : clientInv st) (s : ClientStep) :
    clientInv (clientStepRun st s) := by
  obtain ⟨hnd, hlt⟩ := h
  cases s with
  | call ch o =>
    cases o with
    | sent =>
      exact ⟨keys_nodup_pendingInsert hnd st.nextID ch, bound_pendingInsert hlt ch⟩
    | paramsMarshalError =>
      exact ⟨keys_nodup_pendingErase (keys_nodup_pendingInsert hnd st.nextID ch) st.nextID,
             bound_pendingErase (bound_pendingInsert hlt ch) st.nextID⟩
    | reqMarshalError =>
      exact ⟨keys_nodup_pendingErase (keys_nodup_pendingInsert hnd st.nextID ch) st.nextID,
             bound_pendingErase (bound_pendingInsert hlt ch) st.nextID⟩
    | writeError =>
      exact ⟨keys_nodup_pendingErase (keys_nodup_pendingInsert hnd st.nextID ch) st.nextID,
             bound_pendingErase (bound_pendingInsert hlt ch) st.nextID⟩
  | recv m =>
    rcases clientHandleMessage_state st m with heq | ⟨i, heq⟩
    · show clientInv (clientHandleMessage st m).1
      rw [heq]
      exact ⟨hnd, hlt⟩
    · show clientInv (clientHandleMessage st m).1
      rw [heq]
      exact ⟨keys_nodup_pendingErase hnd i, bound_pendingErase hlt i⟩

/-- The invariant holds after any step sequence from an invariant
state. -/
theorem runSteps_inv {st : ClientState} (h : clientInv st) :
    ∀ steps : List ClientStep, clientInv (runSteps st steps)
  | [] => h
  | s :: rest => runSteps_inv (clientStepRun_inv h s) rest

/-- A fresh client satisfies the invariant. -/
theorem initClient_inv : clientInv initClient := by
  constructor <;> simp [initClient, pendingKeys]

/-- Claim C2: along any sequence of `CallRaw` sends and read-loop
deliveries from a fresh client, no two live PendingCall entries share an
identifier; the identifier the next call would allocate (the counter)
differs from every live identifier, so identifiers are never reused
while live; and once a delivery resolves identifier i, i is no longer a
key of the pending map. -/
theorem C2_identifier_uniqueness (steps : List ClientStep) :
    (pendingKeys (runSteps initClient steps).pendingRequests).Nodup
    ∧ (∀ p ∈ (runSteps initClient steps).pendingRequests,
         p.1 ≠ (runSteps initClient steps).nextID)
    ∧ (∀ (fields : List (String × Json)) (i : Int) (resp : Response) (ch : Nat),
         lookupField fields "id" = some (Json.num i) →
         decodeResponse fields = some resp →
         pendingLookup (runSteps initClient steps).pendingRequests i = some ch →
         i ∉ pendingKeys
            (clientHandleMessage (runSteps initClient steps)
              (ClientInbound.msg fields)).1.pendingRequests) := by
  have hinv := runSteps_inv initClient_inv steps
  refine ⟨hinv.1, fun p hp => ne_of_lt (hinv.2 p hp), ?_⟩
  intro fields i resp ch hid hresp hch
  simp only [clientHandleMessage, hid, hresp, hch]
  exact not_mem_keys_pendingErase _ i

/-- Two successful sequential calls for the C2 witness. -/
def demoSteps : List ClientStep :=
  [ClientStep.call 10 SendOutcome.sent, ClientStep.call 11 SendOutcome.sent]

/-- Witness for C2: after two calls the keys are distinct, a live key
differs from the counter, and delivering id 1 removes it. -/
theorem C2_witness :
    (pendingKeys (runSteps initClient demoSteps).pendingRequests).Nodup
    ∧ (0 : Int) ≠ (runSteps initClient demoSteps).nextID
    ∧ (1 : Int) ∉ pendingKeys
        (clientHandleMessage (runSteps initClient demoSteps)
          (ClientInbound.msg demoFields)).1.pendingRequests :=
  ⟨(C2_identifier_uniqueness demoSteps).1,
   (C2_identifier_uniqueness demoSteps).2.1 (0, 10) (by decide),
   (C2_identifier_uniqueness demoSteps).2.2 demoFields 1 demoResp 11 rfl rfl rfl⟩

/-- The arithmetic progression `[start, start+1, ..., start+n-1]`. -/
def idsFrom (start : Int) : Nat → List Int
  | 0 => []
  | Nat.succ k => start :: idsFrom (start + 1) k

/-- Members of `idsFrom start n` are at least `start`. -/
theorem mem_idsFrom {y : Int} :
    ∀ {s : Int} {n : Nat}, y ∈ idsFrom s n → s ≤ y := by
  intro s n
  induction n generalizing s with
  | zero => intro h; simp [idsFrom] at h
  | succ k ih =>
    intro h
    rcases List.mem_cons.mp h with h | h
    · exact le_of_eq h.symm
    · exact le_trans (by omega) (ih h)

/-- `idsFrom` is strictly increasing. -/
theorem pairwise_idsFrom (s : Int) (n : Nat) :
    (idsFrom s n).Pairwise (· < ·) := by
  induction n generalizing s with
  | zero => exact List.Pairwise.nil
  | succ k ih =>
    exact List.Pairwise.cons (fun y hy => lt_of_lt_of_le (by omega) (mem_idsFrom hy)) (ih (s + 1))

/-- The identifiers recorded along a step sequence count up from the
starting counter value, one per call. -/
theorem runRecord_eq (st : ClientState) :
    ∀ steps : List ClientStep,
      runRecord st steps = idsFrom st.nextID (countCalls steps) := by
  intro steps
  induction steps generalizing st with
  | nil => rfl
  | cons s rest ih =>
    cases s with
    | call ch o =>
      show st.nextID :: runRecord (clientStepRun st (ClientStep.call ch o)) rest
          = idsFrom st.nextID (countCalls rest + 1)
      rw [ih (clientStepRun st (ClientStep.call ch o))]
      show st.nextID :: idsFrom (clientStepRun st (ClientStep.call ch o)).nextID (countCalls rest)
          = st.nextID :: idsFrom (st.nextID + 1) (countCalls rest)
      rw [show (clientStepRun st (ClientStep.call ch o)).nextID = st.nextID + 1 from
            callRawSend_nextID st ch o]
    | recv m =>
      show runRecord (clientStepRun st (ClientStep.recv m)) rest
          = idsFrom st.nextID (countCalls rest)
      rw [ih (clientStepRun st (ClientStep.recv m))]
      rw [show (clientStepRun st (ClientStep.recv m)).nextID = st.nextID from
            clientHandleMessage_nextID st m]

/-- Counterexample to claim C5 as stated: the very first call issued on
a freshly created client carries identifier 0, not 1 (`nextID` is a Go
zero value and `NewClient` never sets it). -/
theorem C5_counterexample :
    runRecord initClient [ClientStep.call 0 SendOutcome.sent] = [0]
    ∧ (0 : Int) ≠ 1 :=
  ⟨rfl, by decide⟩

/-- Claim C5 as amended: the client's identifier counter starts at 0 and
increases monotonically — along any step sequence the issued
identifiers are 0, 1, 2, ... in order (one per call), hence strictly
increasing and never reused. -/
theorem C5_amended (steps : List ClientStep) :
    runRecord initClient steps = idsFrom 0 (countCalls steps)
    ∧ (runRecord initClient steps).Pairwise (· < ·) := by
  refine ⟨runRecord_eq initClient steps, ?_⟩
  rw [runRecord_eq initClient steps]
  exact pairwise_idsFrom 0 (countCalls steps)

/-- Claim C8: when parameter marshalling, request marshalling or the
transport write fails, `CallRaw` returns that error and the registry
entry for the allocated identifier has been removed again, leaving the
pending map exactly as before the call (given the allocated identifier
was fresh, which the registry invariant guarantees). -/
theorem C8_failed_send_cleanup (st : ClientState) (ch : Nat) (o : SendOutcome)
    (ho : o ≠ SendOutcome.sent)
    (hfresh : ∀ p ∈ st.pendingRequests, p.1 ≠ st.nextID) :
    (callRawSend st ch o).2 = Except.error o
    ∧ (callRawSend st ch o).1.pendingRequests = st.pendingRequests := by
  have hall : ∀ p ∈ st.pendingRequests, (p.1 != st.nextID) = true :=
    fun p hp => bne_iff_ne.mpr (hfresh p hp)
  have key : pendingErase (pendingInsert st.pendingRequests st.nextID ch) st.nextID
      = st.pendingRequests := by
    unfold pendingInsert pendingErase
    rw [List.filter_append, List.filter_filter]
    simp [List.filter_eq_self.mpr hall, Bool.and_self]
  cases o with
  | sent => exact absurd rfl ho
  | paramsMarshalError => exact ⟨rfl, key⟩
  | reqMarshalError => exact ⟨rfl, key⟩
  | writeError => exact ⟨rfl, key⟩

/-- A client with one live call (id 0) and counter 1 for the C8
witness. -/
def demoClient8 : ClientState := ⟨[], [(0, 9)], 1⟩

/-- Witness for C8: a failing transport write returns the write error
and leaves the pending map as it was. -/
theorem C8_witness :
    (callRawSend demoClient8 5 SendOutcome.writeError).2
        = Except.error SendOutcome.writeError
    ∧ (callRawSend demoClient8 5 SendOutcome.writeError).1.pendingRequests
        = demoClient8.pendingRequests :=
  C8_failed_send_cleanup demoClient8 5 SendOutcome.writeError (by decide) (by decide)

end Mcp
